import Mathlib

/-!
Shallow embedding of the Bytebot `AgentProcessor` (agent.processor.ts) and the
pieces of its surroundings that the verified properties refer to: the model
descriptor resolver, the provider registry, the conversation assembler, the
summarizer trigger, the tool dispatcher with computer-tool degradation, the
interrupt/retry error handler, and the lifecycle operations.

External collaborators (task store, message store, summary store, LLM
providers, desktop tool handler) are modelled as an environment record whose
fields supply the results of their calls; the processor's side effects on them
are recorded as an explicit effect trace. Timestamps (`new Date()`) are elided:
no decision in the embedded code depends on them.
-/

/-- Task status enum (`TaskStatus` from the Prisma schema). -/
inductive TaskStatus
  | PENDING
  | RUNNING
  | NEEDS_HELP
  | COMPLETED
  | FAILED
  | CANCELLED
deriving DecidableEq, Repr

/-- Message role enum (`Role` from the Prisma schema). -/
inductive Role
  | USER
  | ASSISTANT
deriving DecidableEq, Repr

/-- A JavaScript value as persisted in the task's `model` column.  The
processor treats it as `unknown` and coerces it; we model the shapes the
coercion code distinguishes: strings, numbers, booleans, `null`, `undefined`,
arrays and plain objects (association lists of fields).  Numbers are modelled
as integers: every number this code path reads (context windows, token
counts) is an integer, and at these magnitudes the JS double arithmetic on
them is exact. -/
inductive JsonVal
  | str (s : String)
  | num (q : ℤ)
  | bool (b : Bool)
  | null
  | undef
  | arr (xs : List JsonVal)
  | obj (fields : List (String × JsonVal))

/-- JS property access `o[k]` on a plain object: the first field with the key,
`undefined` when absent. -/
def JsonVal.getField (fields : List (String × JsonVal)) (k : String) : JsonVal :=
  match fields.find? (fun f => f.1 == k) with
  | some f => f.2
  | none => JsonVal.undef

/-- `typeof v === 'string'` — extracts the string when it is one. -/
def JsonVal.asString : JsonVal → Option String
  | .str s => some s
  | _ => none

/-- `typeof v === 'number'` — extracts the number when it is one. -/
def JsonVal.asNumber : JsonVal → Option ℤ
  | .num q => some q
  | _ => none

/-- The canonical model descriptor (`BytebotAgentModel` from agent.types).
The source's object branch casts `obj.provider as BytebotAgentModel['provider']`
without validating it, so the provider here is a plain string. -/
structure BytebotAgentModel where
  provider : String
  name : String
  title : String
  contextWindow : Option ℤ := none
deriving DecidableEq, Repr

/-- `haystack.includes(needle)` on character lists (JS `String.prototype.includes`). -/
def listContainsSeq (needle : List Char) : List Char → Bool
  | [] => needle.isEmpty
  | c :: rest => needle.isPrefixOf (c :: rest) || listContainsSeq needle rest

/-- JS `name.includes(sub)`. -/
def strIncludes (s sub : String) : Bool :=
  listContainsSeq sub.toList s.toList

/-- JS `name.startsWith(p)`. -/
def strStartsWith (s p : String) : Bool :=
  p.toList.isPrefixOf s.toList

/-- `inferProvider` (agent.processor.ts, bottom of the file): provider inferred
from a bare model name by prefix / substring, first match wins. -/
def inferProvider (name : String) : String :=
  if strStartsWith name "claude" then "anthropic"
  else if strStartsWith name "gemini" then "google"
  else if strStartsWith name "gpt-" || strIncludes name "openai" then "openai"
  else "proxy"

/-- The default descriptor used when the persisted model is unusable. -/
def defaultModel : BytebotAgentModel :=
  { provider := "openai", name := "gpt-4.1-mini", title := "gpt-4.1-mini" }

/-- The model-descriptor coercion from `runIteration` (lines 210-254): object
with string `provider` and `name` is taken as-is (provider unvalidated,
`contextWindow` carried when numeric), object with only a string `name` infers
the provider, a string is treated as a name, everything else defaults.  JS
guard: `rawModel && typeof rawModel === 'object' && !Array.isArray(rawModel)`
selects exactly non-null plain objects (arrays excluded, `null` is falsy). -/
def resolveModel (rawModel : JsonVal) : BytebotAgentModel :=
  match rawModel with
  | .obj fields =>
      match (JsonVal.getField fields "provider").asString,
            (JsonVal.getField fields "name").asString with
      | some provider, some name =>
          { provider := provider
            name := name
            title := ((JsonVal.getField fields "title").asString).getD name
            contextWindow := (JsonVal.getField fields "contextWindow").asNumber }
      | none, some name =>
          { provider := inferProvider name
            name := name
            title := ((JsonVal.getField fields "title").asString).getD name }
      | _, none => defaultModel
  | .str s => { provider := inferProvider s, name := s, title := s }
  | _ => defaultModel

/-- The keys of the `services` record built in the constructor
(`anthropic`, `openai`, `google`, `proxy`). -/
def registeredProviders : List String :=
  ["anthropic", "openai", "google", "proxy"]

/-- Tool-use input as used by the recognized control tools
(`set_task_status {status, description}`, `create_task {description, ...}`).
The create-task fields `type`, `priority` and `scheduledFor`, which the
dispatcher merely forwards to the task store, are elided. -/
structure ToolInput where
  status : String := ""
  description : String := ""
deriving DecidableEq, Repr

/-- A content element inside a tool result (the `content` array of a
`ToolResultContentBlock`): text, or an opaque non-text payload such as a
screenshot image. -/
inductive SimpleBlock
  | text (s : String)
  | other
deriving DecidableEq, Repr

/-- The payload of a `ToolResultContentBlock`. -/
structure ToolResultData where
  tool_use_id : String
  is_error : Bool := false
  content : List SimpleBlock
deriving DecidableEq, Repr

/-- A message content block (`MessageContentBlock` from `@bytebot/shared`):
text, tool use, tool result, or some other block kind (thinking, image, ...). -/
inductive ContentBlock
  | text (text : String)
  | toolUse (name : String) (id : String) (input : ToolInput)
  | toolResult (d : ToolResultData)
  | other
deriving DecidableEq, Repr

/-- Modelled from the spec: `isComputerToolUseContentBlock` from
`@bytebot/shared` (not under src/) — a tool-use block whose `name` starts with
`computer_` denotes a desktop tool. -/
def isComputerToolUseContentBlock : ContentBlock → Bool
  | .toolUse name _ _ => strStartsWith name "computer_"
  | _ => false

/-- Modelled from the spec: `isSetTaskStatusToolUseBlock` from
`@bytebot/shared` (not under src/) — a tool-use block named `set_task_status`. -/
def isSetTaskStatusToolUseBlock : ContentBlock → Bool
  | .toolUse name _ _ => name == "set_task_status"
  | _ => false

/-- Modelled from the spec: `isCreateTaskToolUseBlock` from `@bytebot/shared`
(not under src/) — a tool-use block named `create_task`. -/
def isCreateTaskToolUseBlock : ContentBlock → Bool
  | .toolUse name _ _ => name == "create_task"
  | _ => false

/-- A stored (or synthetic) message row.  `createdAt`/`updatedAt` are elided;
synthetic messages built by the processor use `id = ""`. -/
structure Message where
  id : String
  role : Role
  taskId : String
  summaryId : Option String := none
  content : List ContentBlock
deriving DecidableEq, Repr

/-- The `AgentProcessor` fields: the singleton trio and the three per-task
ephemeral records (JS `Record<string, _>` modelled as association lists).
`abortController` holds the identity of the current `AbortController`
(`none` = JS `null`). -/
structure ProcState where
  currentTaskId : Option String
  isProcessing : Bool
  abortController : Option ℕ
  retryCounts : List (String × ℕ)
  computerToolFailures : List (String × ℕ)
  computerToolsDisabled : List (String × Bool)
deriving DecidableEq, Repr

/-- JS record read `m[k]` (as `Option`). -/
def recGet {α : Type} (m : List (String × α)) (k : String) : Option α :=
  (m.find? (fun e => e.1 == k)).map (fun e => e.2)

/-- JS record write `m[k] = v`. -/
def recSet {α : Type} (m : List (String × α)) (k : String) (v : α) :
    List (String × α) :=
  (k, v) :: m.filter (fun e => e.1 ≠ k)

/-- JS `delete m[k]`. -/
def recDel {α : Type} (m : List (String × α)) (k : String) : List (String × α) :=
  m.filter (fun e => e.1 ≠ k)

/-- The processor state at construction time. -/
def initialState : ProcState :=
  { currentTaskId := none
    isProcessing := false
    abortController := none
    retryCounts := []
    computerToolFailures := []
    computerToolsDisabled := [] }

/-- `MAX_INTERRUPT_RETRIES` (agent.processor.ts line 44). -/
def MAX_INTERRUPT_RETRIES : ℕ := 3

/-- A partial task update passed to `tasksService.update`:
which status is written, which error string (if any), and whether
`completedAt` is set. -/
structure TaskPatch where
  status : Option TaskStatus := none
  error : Option String := none
  completedAtSet : Bool := false
deriving DecidableEq, Repr

/-- One observable side effect of the processor on its collaborators. -/
inductive Effect
  | taskUpdate (taskId : String) (patch : TaskPatch)
  | taskCreate (description : String)
  | msgCreate (taskId : String) (role : Role) (content : List ContentBlock)
  | summaryCreate (taskId : String) (content : String)
  | attachSummary (taskId : String) (summaryId : String) (ids : List String)
  | providerCall (systemPrompt : String) (messages : List Message)
      (modelName : String) (toolsEnabled : Bool)
  | scheduleNext (taskId : String)
  | scheduleRetry (taskId : String) (delayMs : ℕ)
  | inputCaptureStart (taskId : String)
  | inputCaptureStop
  | abortSignal
deriving DecidableEq, Repr

/-- Modelled from the spec: `AGENT_SYSTEM_PROMPT` from agent.constants (not
under src/); its text is opaque to the processor, only its identity matters. -/
def AGENT_SYSTEM_PROMPT : String := "AGENT_SYSTEM_PROMPT"

/-- Modelled from the spec: `SUMMARIZATION_SYSTEM_PROMPT` from agent.constants
(not under src/); opaque, distinct from the agent prompt. -/
def SUMMARIZATION_SYSTEM_PROMPT : String := "SUMMARIZATION_SYSTEM_PROMPT"

/-- A synthetic (never-persisted) USER message with a single Text block, as
built inline in `runIteration` (`id: ''`, fresh dates, `summaryId: null`). -/
def syntheticUserMessage (taskId text : String) : Message :=
  { id := "", role := Role.USER, taskId := taskId, summaryId := none
    content := [ContentBlock.text text] }

/-- The advisory text injected when desktop automation is disabled
(agent.processor.ts line 199). -/
def advisoryText : String :=
  "System notice: Desktop automation tools (computer_*) are unavailable. Do not request computer_* tool calls. Provide next instructions or ask the user for needed information instead."

/-- Conversation assembly (`runIteration` lines 163-205): optional synthetic
summary message, then the unsummarized messages, then — iff
`computerToolsDisabled[taskId]` is truthy — the advisory message. -/
def assembleMessages (st : ProcState) (taskId : String)
    (latestSummary : Option String) (unsummarized : List Message) :
    List Message :=
  (match latestSummary with
   | some c => [syntheticUserMessage taskId c]
   | none => []) ++
  unsummarized ++
  (if (recGet st.computerToolsDisabled taskId).getD false then
    [syntheticUserMessage taskId advisoryText]
   else [])

/-- The error written on computer-tool degradation (lines 412-413). -/
def degradationError : String :=
  "Desktop automation unavailable. Please provide guidance or perform actions manually."

/-- Outcome of the block-dispatch loop: either the early `return` of the
degradation branch (with the final processor state and the effects emitted so
far), or normal completion with the accumulated tool results and the last
`set_task_status` block seen. -/
inductive DispatchOutcome
  | degraded (st : ProcState) (effects : List Effect)
  | done (st : ProcState) (effects : List Effect)
      (results : List ToolResultData) (stsb : Option (String × ToolInput))
deriving DecidableEq, Repr

/-- The `for (const block of messageContentBlocks)` loop (lines 392-465).
`computerResults idx` supplies the `handleComputerToolUse` result for the
block at position `idx`.  Effects emitted inside the loop are the create-task
store calls and, in the degradation branch, the NEEDS_HELP update. -/
def dispatchBlocks (taskId : String) (computerResults : ℕ → ToolResultData) :
    ProcState → ℕ → List ContentBlock → List Effect → List ToolResultData →
    Option (String × ToolInput) → DispatchOutcome
  | st, _, [], effs, results, stsb => DispatchOutcome.done st effs results stsb
  | st, idx, b :: rest, effs, results, stsb =>
    match b with
    | ContentBlock.toolUse name bid input =>
      if isComputerToolUseContentBlock (ContentBlock.toolUse name bid input) then
        let result := computerResults idx
        let results := results ++ [result]
        if result.is_error && strStartsWith name "computer_" then
          let failures := (recGet st.computerToolFailures taskId).getD 0 + 1
          let st := { st with
            computerToolFailures := recSet st.computerToolFailures taskId failures }
          if failures ≥ 2 ∧ ¬ (recGet st.computerToolsDisabled taskId).getD false then
            DispatchOutcome.degraded
              { st with
                computerToolsDisabled := recSet st.computerToolsDisabled taskId true
                isProcessing := false
                currentTaskId := none }
              (effs ++ [Effect.taskUpdate taskId
                { status := some TaskStatus.NEEDS_HELP
                  error := some degradationError }])
          else
            dispatchBlocks taskId computerResults st (idx + 1) rest effs results stsb
        else
          dispatchBlocks taskId computerResults st (idx + 1) rest effs results stsb
      else if isCreateTaskToolUseBlock (ContentBlock.toolUse name bid input) then
        dispatchBlocks taskId computerResults st (idx + 1) rest
          (effs ++ [Effect.taskCreate input.description])
          (results ++ [{ tool_use_id := bid
                         content := [SimpleBlock.text "The task has been created"] }])
          stsb
      else if isSetTaskStatusToolUseBlock (ContentBlock.toolUse name bid input) then
        dispatchBlocks taskId computerResults st (idx + 1) rest effs
          (results ++ [{ tool_use_id := bid
                         is_error := input.status == "failed"
                         content := [SimpleBlock.text input.description] }])
          (some (bid, input))
      else
        dispatchBlocks taskId computerResults st (idx + 1) rest effs results stsb
    | _ => dispatchBlocks taskId computerResults st (idx + 1) rest effs results stsb

/-- The deferred status switch (lines 477-489): which task patch the
`set_task_status` value produces after the block sweep.  `completed` and
`needs_help` transition; every other value (including `failed`) is ignored. -/
def statusUpdatePatch (status : String) : Option TaskPatch :=
  if status == "completed" then
    some { status := some TaskStatus.COMPLETED, completedAtSet := true }
  else if status == "needs_help" then
    some { status := some TaskStatus.NEEDS_HELP }
  else none

/-- The tail of a normally-completed iteration (lines 467-497): persist the
generated tool results (if any) as one USER message, apply the deferred
`set_task_status` transition, and — if still processing — schedule the next
iteration via `setImmediate`. -/
def finishDispatch (taskId : String) (st : ProcState)
    (results : List ToolResultData) (stsb : Option (String × ToolInput)) :
    List Effect :=
  (if results.isEmpty then []
   else [Effect.msgCreate taskId Role.USER (results.map ContentBlock.toolResult)]) ++
  (match stsb with
   | some (_, input) =>
     match statusUpdatePatch input.status with
     | some p => [Effect.taskUpdate taskId p]
     | none => []
   | none => []) ++
  (if st.isProcessing then [Effect.scheduleNext taskId] else [])

/-- Outcome of a `generateMessage` call: a response with content blocks and
`tokenUsage.totalTokens`, or a thrown error (whose normalized message is
recorded).  Note the source wraps the first provider call in its own
try/catch, so any throw there — interrupts included — is handled locally. -/
inductive ProviderCallResult
  | success (contentBlocks : List ContentBlock) (totalTokens : ℤ)
  | failure (errMessage : String)
deriving DecidableEq, Repr

/-- Everything the external collaborators return during one iteration of
`runIteration`.  `computerResults idx` is the desktop handler's result for the
content block at position `idx`; `summaryCallResult = none` means the
summarization sub-call threw (the error is swallowed). -/
structure IterEnv where
  taskStatus : TaskStatus
  taskModel : JsonVal
  latestSummary : Option String
  unsummarized : List Message
  providerResult : ProviderCallResult
  computerResults : ℕ → ToolResultData
  summaryCallResult : Option (List ContentBlock)
  newSummaryId : String
  freshAbortId : ℕ

/-- The instruction appended for the summarization sub-call (line 341). -/
def summarizeInstruction : String :=
  "Respond with a summary of the messages above. Do not include any additional information."

/-- The no-content error (line 305). -/
def noContentError : String := "No content blocks returned from model"

/-- `message.slice(0, 500) || fallback`. -/
def capped (message fallback : String) : String :=
  let m := String.mk (message.toList.take 500)
  if m = "" then fallback else m

/-- `totalTokens >= contextWindow * 0.75` (lines 320-322), written in the
exact cross-multiplied integer form `3·contextWindow ≤ 4·totalTokens`; the
lemma `thresholdReached_iff_ratio` below certifies that this coincides with
the rational comparison against `contextWindow * 0.75`. -/
def thresholdReached (contextWindow totalTokens : ℤ) : Bool :=
  3 * contextWindow ≤ 4 * totalTokens

/-- The integer form of the summarization trigger is exactly the source's
`totalTokens >= contextWindow * 0.75` over exact (rational) arithmetic. -/
theorem thresholdReached_iff_ratio (contextWindow totalTokens : ℤ) :
    thresholdReached contextWindow totalTokens = true ↔
      (totalTokens : ℚ) ≥ (contextWindow : ℚ) * (3 / 4) := by
  unfold thresholdReached
  rw [decide_eq_true_iff]
  constructor
  · intro h
    have h4 : ((3 * contextWindow : ℤ) : ℚ) ≤ ((4 * totalTokens : ℤ) : ℚ) := by
      exact_mod_cast h
    push_cast at h4
    linarith
  · intro h
    have h4 : ((3 * contextWindow : ℤ) : ℚ) ≤ ((4 * totalTokens : ℤ) : ℚ) := by
      push_cast
      linarith
    exact_mod_cast h4

/-- `model.contextWindow || 200000` (line 319): JS `||` takes the default
when the stored context window is falsy, i.e. absent or 0 (NaN has no integer
counterpart here). -/
def defaultedWindow (cw : Option ℤ) : ℤ :=
  match cw with
  | some q => if q = 0 then 200000 else q
  | none => 200000

/-- The `text` payloads of the Text content blocks of a response, in order
(the filter/map of lines 356-361). -/
def textsOf (blocks : List ContentBlock) : List String :=
  blocks.filterMap (fun b =>
    match b with
    | ContentBlock.text t => some t
    | _ => none)

/-- The summarization step (lines 318-386): when `totalTokens` reaches 75% of
the (JS-falsy-defaulted) context window, call the provider again with tools
disabled, create a summary from the Text blocks of the response joined by
newlines, and attach it to the ids of the assembled message list.  A throw in
the sub-call is logged and swallowed. -/
def summarizeEffects (taskId : String) (model : BytebotAgentModel)
    (msgs : List Message) (totalTokens : ℤ)
    (summaryCallResult : Option (List ContentBlock)) (newSummaryId : String) :
    List Effect :=
  if thresholdReached (defaultedWindow model.contextWindow) totalTokens then
    match summaryCallResult with
    | none =>
      [Effect.providerCall SUMMARIZATION_SYSTEM_PROMPT
        (msgs ++ [syntheticUserMessage taskId summarizeInstruction])
        model.name false]
    | some sBlocks =>
      [Effect.providerCall SUMMARIZATION_SYSTEM_PROMPT
        (msgs ++ [syntheticUserMessage taskId summarizeInstruction])
        model.name false,
       Effect.summaryCreate taskId (String.intercalate "\n" (textsOf sBlocks)),
       Effect.attachSummary taskId newSummaryId (msgs.map (fun m => m.id))]
  else []

/-- The part of the `runIteration` body from provider-registry lookup onward
(lines 255-497), after the conversation `msgs` and the descriptor `model`
have been computed: the registry miss, the guarded provider call, the
no-content check, persistence of the assistant turn, summarization, block
dispatch, and the finishing tail. -/
def runIterationResolved (st1 : ProcState) (taskId : String) (env : IterEnv)
    (msgs : List Message) (model : BytebotAgentModel) : ProcState × List Effect :=
  if model.provider ∉ registeredProviders then
    ({ st1 with isProcessing := false, currentTaskId := none },
     [Effect.taskUpdate taskId { status := some TaskStatus.FAILED }])
  else
    match env.providerResult with
    | ProviderCallResult.failure msg =>
      ({ st1 with isProcessing := false, currentTaskId := none },
       [Effect.providerCall AGENT_SYSTEM_PROMPT msgs model.name true,
        Effect.taskUpdate taskId
          { status := some TaskStatus.FAILED
            error := some (capped msg "LLM error") }])
    | ProviderCallResult.success blocks totalTokens =>
      if blocks.isEmpty then
        ({ st1 with isProcessing := false, currentTaskId := none },
         [Effect.providerCall AGENT_SYSTEM_PROMPT msgs model.name true,
          Effect.taskUpdate taskId
            { status := some TaskStatus.FAILED, error := some noContentError }])
      else
        match dispatchBlocks taskId env.computerResults st1 0 blocks [] [] none with
        | DispatchOutcome.degraded st2 effD =>
          (st2,
           Effect.providerCall AGENT_SYSTEM_PROMPT msgs model.name true ::
           Effect.msgCreate taskId Role.ASSISTANT blocks ::
           (summarizeEffects taskId model msgs totalTokens
              env.summaryCallResult env.newSummaryId ++ effD))
        | DispatchOutcome.done st2 effD results stsb =>
          (st2,
           Effect.providerCall AGENT_SYSTEM_PROMPT msgs model.name true ::
           Effect.msgCreate taskId Role.ASSISTANT blocks ::
           (summarizeEffects taskId model msgs totalTokens
              env.summaryCallResult env.newSummaryId ++
            (effD ++ finishDispatch taskId st2 results stsb)))

/-- The body of `runIteration` (lines 140-497), i.e. the `try` block: the
not-processing guard, the not-RUNNING wind-down, abort-handle refresh,
conversation assembly, descriptor resolution, and the rest of the iteration
(`runIterationResolved`).  Returns the new processor state and the effect
trace. -/
def runIterationBody (st0 : ProcState) (taskId : String) (env : IterEnv) :
    ProcState × List Effect :=
  if ¬ st0.isProcessing then (st0, [])
  else if env.taskStatus ≠ TaskStatus.RUNNING then
    ({ st0 with isProcessing := false, currentTaskId := none }, [])
  else
    runIterationResolved { st0 with abortController := some env.freshAbortId }
      taskId env
      (assembleMessages { st0 with abortController := some env.freshAbortId }
        taskId env.latestSummary env.unsummarized)
      (resolveModel env.taskModel)

/-- A thrown JS error as seen by the outer catch: the optional `name` property
and the normalized message. -/
structure JsError where
  name : Option String := none
  message : String
deriving DecidableEq, Repr

/-- Interrupt classification (lines 501-504): name equals
`BytebotAgentInterrupt`, or the normalized message is that exact string. -/
def isInterrupt (e : JsError) : Bool :=
  e.name == some "BytebotAgentInterrupt" || e.message == "BytebotAgentInterrupt"

/-- The NEEDS_HELP error after retry exhaustion (lines 532-533). -/
def interruptExhaustedError : String :=
  "Processing interrupted multiple times (model/tool aborted). You can resume or take over."

/-- The outer `catch` of `runIteration` (lines 498-548): interrupts get a
bounded retry (a ~500 ms re-schedule, keeping the processing state); an
exhausted interrupt marks NEEDS_HELP, any other error marks FAILED; both
terminal branches delete `retryCounts[taskId]` and clear the singleton flags. -/
def handleIterationError (st : ProcState) (taskId : String) (err : JsError) :
    ProcState × List Effect :=
  if isInterrupt err then
    let current := (recGet st.retryCounts taskId).getD 0
    if current < MAX_INTERRUPT_RETRIES then
      ({ st with retryCounts := recSet st.retryCounts taskId (current + 1) },
       [Effect.scheduleRetry taskId 500])
    else
      ({ st with
          retryCounts := recDel st.retryCounts taskId
          isProcessing := false
          currentTaskId := none },
       [Effect.taskUpdate taskId
          { status := some TaskStatus.NEEDS_HELP
            error := some interruptExhaustedError }])
  else
    ({ st with
        retryCounts := recDel st.retryCounts taskId
        isProcessing := false
        currentTaskId := none },
     [Effect.taskUpdate taskId
        { status := some TaskStatus.FAILED
          error := some (capped err.message "Processing error") }])

/-- `processTask` (lines 120-134). -/
def processTask (st : ProcState) (taskId : String) (freshAbortId : ℕ) :
    ProcState × List Effect :=
  if st.isProcessing then (st, [])
  else
    ({ st with
        isProcessing := true
        currentTaskId := some taskId
        abortController := some freshAbortId },
     [Effect.scheduleNext taskId])

/-- `handleTaskTakeover` (lines 90-101): abort if this task is in flight,
always start input capture.  Touches no singleton field. -/
def handleTaskTakeover (st : ProcState) (taskId : String) :
    ProcState × List Effect :=
  (st,
   (if st.currentTaskId == some taskId && st.isProcessing then [Effect.abortSignal]
    else []) ++
   [Effect.inputCaptureStart taskId])

/-- `handleTaskResume` (lines 103-111): when still holding this task, renew the
abort handle and kick an iteration. -/
def handleTaskResume (st : ProcState) (taskId : String) (freshAbortId : ℕ) :
    ProcState × List Effect :=
  if st.currentTaskId == some taskId && st.isProcessing then
    ({ st with abortController := some freshAbortId }, [Effect.scheduleNext taskId])
  else (st, [])

/-- `stopProcessing` (lines 551-565): idempotent; aborts, stops input capture,
clears `isProcessing` and `currentTaskId` — and nothing else: the abort handle
stays non-null and no ephemeral per-task entry is deleted. -/
def stopProcessing (st : ProcState) : ProcState × List Effect :=
  if ¬ st.isProcessing then (st, [])
  else
    ({ st with isProcessing := false, currentTaskId := none },
     [Effect.abortSignal, Effect.inputCaptureStop])

/-- `handleTaskCancel` (lines 113-118) just delegates to `stopProcessing`. -/
def handleTaskCancel (st : ProcState) : ProcState × List Effect :=
  stopProcessing st

/-- Effect kinds the dispatch loop itself can emit (create-task store calls
and the degradation NEEDS_HELP update). -/
def dispatchOnly (e : Effect) : Bool :=
  match e with
  | Effect.taskCreate _ => true
  | Effect.taskUpdate _ _ => true
  | _ => false

/-- Is this effect the summarization provider call? -/
def isSummarizationCall (e : Effect) : Bool :=
  match e with
  | Effect.providerCall sp _ _ _ => sp == SUMMARIZATION_SYSTEM_PROMPT
  | _ => false

/-- The id list of an `attachSummary` effect, if it is one. -/
def attachIdsOf (e : Effect) : Option (List String) :=
  match e with
  | Effect.attachSummary _ _ ids => some ids
  | _ => none

/-- What the dispatch loop guarantees about its outcome: the degraded branch
clears the singleton flags, the done branch leaves them alone; neither touches
`retryCounts`; and the loop only appends create-task / task-update effects to
the accumulator. -/
def dispatchInv (st : ProcState) (effs : List Effect) : DispatchOutcome → Prop
  | DispatchOutcome.degraded st' effs' =>
      st'.isProcessing = false ∧ st'.currentTaskId = none ∧
      st'.retryCounts = st.retryCounts ∧
      st'.abortController = st.abortController ∧
      ∃ extra, effs' = effs ++ extra ∧ extra.all dispatchOnly = true
  | DispatchOutcome.done st' effs' _ _ =>
      st'.isProcessing = st.isProcessing ∧ st'.currentTaskId = st.currentTaskId ∧
      st'.retryCounts = st.retryCounts ∧
      st'.abortController = st.abortController ∧
      ∃ extra, effs' = effs ++ extra ∧ extra.all dispatchOnly = true

theorem dispatchInv_state {st st2 : ProcState} {effs : List Effect}
    {o : DispatchOutcome}
    (hp : st2.isProcessing = st.isProcessing) (hc : st2.currentTaskId = st.currentTaskId)
    (hr : st2.retryCounts = st.retryCounts) (ha : st2.abortController = st.abortController)
    (h : dispatchInv st2 effs o) : dispatchInv st effs o := by
  cases o with
  | degraded st' effs' =>
    obtain ⟨h1, h2, h3, h4, extra, he, hall⟩ := h
    exact ⟨h1, h2, hr ▸ h3, ha ▸ h4, extra, he, hall⟩
  | done st' effs' r sb =>
    obtain ⟨h1, h2, h3, h4, extra, he, hall⟩ := h
    exact ⟨hp ▸ h1, hc ▸ h2, hr ▸ h3, ha ▸ h4, extra, he, hall⟩

theorem dispatchInv_append {st : ProcState} {effs : List Effect} {e : Effect}
    {o : DispatchOutcome} (hde : dispatchOnly e = true)
    (h : dispatchInv st (effs ++ [e]) o) : dispatchInv st effs o := by
  cases o with
  | degraded st' effs' =>
    obtain ⟨h1, h2, h3, h4, extra, he, hall⟩ := h
    refine ⟨h1, h2, h3, h4, e :: extra, by simp [he], ?_⟩
    simp [List.all_cons, hde, hall]
  | done st' effs' r sb =>
    obtain ⟨h1, h2, h3, h4, extra, he, hall⟩ := h
    refine ⟨h1, h2, h3, h4, e :: extra, by simp [he], ?_⟩
    simp [List.all_cons, hde, hall]

theorem dispatchBlocks_inv (taskId : String) (cr : ℕ → ToolResultData) :
    ∀ (blocks : List ContentBlock) (st : ProcState) (idx : ℕ) (effs : List Effect)
      (results : List ToolResultData) (stsb : Option (String × ToolInput)),
      dispatchInv st effs (dispatchBlocks taskId cr st idx blocks effs results stsb) := by
  intro blocks
  induction blocks with
  | nil =>
    intro st idx effs results stsb
    exact ⟨rfl, rfl, rfl, rfl, [], by simp, rfl⟩
  | cons b rest ih =>
    intro st idx effs results stsb
    cases b with
    | text s => simpa only [dispatchBlocks] using ih st (idx + 1) effs results stsb
    | toolResult d => simpa only [dispatchBlocks] using ih st (idx + 1) effs results stsb
    | other => simpa only [dispatchBlocks] using ih st (idx + 1) effs results stsb
    | toolUse name bid input =>
      simp only [dispatchBlocks]
      split
      · -- computer tool use
        split
        · -- error-marked result
          split
          · -- degradation: early return
            exact ⟨rfl, rfl, rfl, rfl,
              [Effect.taskUpdate taskId
                { status := some TaskStatus.NEEDS_HELP, error := some degradationError }],
              rfl, rfl⟩
          · -- bumped failure counter, keep looping
            exact dispatchInv_state rfl rfl rfl rfl
              (ih _ (idx + 1) effs (results ++ [cr idx]) stsb)
        · -- result not an error
          exact ih st (idx + 1) effs (results ++ [cr idx]) stsb
      · split
        · -- create_task
          exact dispatchInv_append (by simp [dispatchOnly])
            (ih st (idx + 1) (effs ++ [Effect.taskCreate input.description])
              (results ++ [{ tool_use_id := bid
                             content := [SimpleBlock.text "The task has been created"] }]) stsb)
        · split
          · -- set_task_status
            exact ih st (idx + 1) effs
              (results ++ [{ tool_use_id := bid
                             is_error := input.status == "failed"
                             content := [SimpleBlock.text input.description] }])
              (some (bid, input))
          · exact ih st (idx + 1) effs results stsb

/-- Every provider inferred from a bare name is a registered provider tag. -/
theorem inferProvider_mem (name : String) :
    inferProvider name ∈ registeredProviders := by
  unfold inferProvider registeredProviders
  split
  · simp
  · split
    · simp
    · split
      · simp
      · simp

/-- A processor state that is busy with task `"t"` (as after `processTask`). -/
def runningState : ProcState :=
  { currentTaskId := some "t", isProcessing := true, abortController := some 0,
    retryCounts := [], computerToolFailures := [], computerToolsDisabled := [] }

/-- A plain iteration environment: task `"t"` RUNNING, a string model, empty
history, a one-text-block provider response with zero token usage. -/
def defaultEnv : IterEnv :=
  { taskStatus := TaskStatus.RUNNING
    taskModel := JsonVal.str "gpt-4.1"
    latestSummary := none
    unsummarized := []
    providerResult := ProviderCallResult.success [ContentBlock.text "hi"] 0
    computerResults := fun _ => { tool_use_id := "", content := [] }
    summaryCallResult := none
    newSummaryId := "s1"
    freshAbortId := 1 }

/-- Claim C9: the resolver infers the provider of a bare model name by ordered
prefix rules — claude* → anthropic; gemini* → google; gpt-* or a name
containing "openai" → openai; anything else → proxy — and a persisted value
that is neither an object nor a string resolves to the default
{openai, gpt-4.1-mini, gpt-4.1-mini} descriptor. -/
theorem C9_theorem :
    (∀ name : String, strStartsWith name "claude" = true →
      inferProvider name = "anthropic") ∧
    (∀ name : String, strStartsWith name "claude" = false →
      strStartsWith name "gemini" = true → inferProvider name = "google") ∧
    (∀ name : String, strStartsWith name "claude" = false →
      strStartsWith name "gemini" = false →
      (strStartsWith name "gpt-" = true ∨ strIncludes name "openai" = true) →
      inferProvider name = "openai") ∧
    (∀ name : String, strStartsWith name "claude" = false →
      strStartsWith name "gemini" = false → strStartsWith name "gpt-" = false →
      strIncludes name "openai" = false → inferProvider name = "proxy") ∧
    (∀ v : JsonVal, (∀ fields, v ≠ JsonVal.obj fields) →
      (∀ s, v ≠ JsonVal.str s) → resolveModel v = defaultModel) := by
  refine ⟨?_, ?_, ?_, ?_, ?_⟩
  · intro name h; simp [inferProvider, h]
  · intro name h1 h2; simp [inferProvider, h1, h2]
  · intro name h1 h2 h3
    rcases h3 with h3 | h3 <;> simp [inferProvider, h1, h2, h3]
  · intro name h1 h2 h3 h4; simp [inferProvider, h1, h2, h3, h4]
  · intro v hobj hstr
    cases v with
    | str s => exact absurd rfl (hstr s)
    | obj fields => exact absurd rfl (hobj fields)
    | num q => rfl
    | bool b => rfl
    | null => rfl
    | undef => rfl
    | arr xs => rfl

/-- Claim C9 witness: the rules evaluated at concrete names and a concrete
non-object non-string persisted model value. -/
theorem C9_witness :
    inferProvider "claude-3-sonnet" = "anthropic" ∧
    inferProvider "gemini-pro" = "google" ∧
    inferProvider "azure-openai" = "openai" ∧
    inferProvider "llama-3" = "proxy" ∧
    resolveModel (JsonVal.num 42) = defaultModel :=
  ⟨C9_theorem.1 "claude-3-sonnet" (by decide),
   C9_theorem.2.1 "gemini-pro" (by decide) (by decide),
   C9_theorem.2.2.1 "azure-openai" (by decide) (by decide) (Or.inr (by decide)),
   C9_theorem.2.2.2.1 "llama-3" (by decide) (by decide) (by decide) (by decide),
   C9_theorem.2.2.2.2 (JsonVal.num 42)
     (fun _ h => JsonVal.noConfusion h) (fun _ h => JsonVal.noConfusion h)⟩

/-- Claim C3 counterexample: the resolver is not tag-safe on every input — an
object persisted with a string `provider` outside the known tags is passed
through unvalidated, so the resulting descriptor's provider is not one of
anthropic/openai/google/proxy. -/
theorem C3_counterexample :
    (resolveModel (JsonVal.obj [("provider", JsonVal.str "bogus"),
        ("name", JsonVal.str "m")])).provider = "bogus" ∧
    "bogus" ∉ registeredProviders := by
  exact ⟨rfl, by decide⟩

/-- Does the persisted object carry both a string `provider` and a string
`name` (the branch whose provider string the resolver does not validate)? -/
def objWithProviderAndName (v : JsonVal) : Bool :=
  match v with
  | JsonVal.obj fields =>
      ((JsonVal.getField fields "provider").asString).isSome &&
      ((JsonVal.getField fields "name").asString).isSome
  | _ => false

/-- Claim C3 amended: the resolver is total, and its descriptor's provider tag
is one of the known tags anthropic, openai, google, proxy for every persisted
value except an object carrying both a string `provider` and a string `name`,
whose provider string is passed through unvalidated. -/
theorem C3_amended (v : JsonVal) (h : objWithProviderAndName v = false) :
    (resolveModel v).provider ∈ registeredProviders := by
  cases v with
  | obj fields =>
    unfold objWithProviderAndName at h
    unfold resolveModel
    cases hp : (JsonVal.getField fields "provider").asString with
    | some p =>
      cases hn : (JsonVal.getField fields "name").asString with
      | some n => simp [hp, hn] at h
      | none => simp [hp, hn, defaultModel, registeredProviders]
    | none =>
      cases hn : (JsonVal.getField fields "name").asString with
      | some n =>
        simp only [hp, hn]
        exact inferProvider_mem n
      | none => simp [hp, hn, defaultModel, registeredProviders]
  | str s => exact inferProvider_mem s
  | num q => simp [resolveModel, defaultModel, registeredProviders]
  | bool b => simp [resolveModel, defaultModel, registeredProviders]
  | null => simp [resolveModel, defaultModel, registeredProviders]
  | undef => simp [resolveModel, defaultModel, registeredProviders]
  | arr xs => simp [resolveModel, defaultModel, registeredProviders]

/-- Claim C3 witness: the amended totality evaluated at a bare string model. -/
theorem C3_witness :
    (resolveModel (JsonVal.str "claude-3-sonnet")).provider ∈ registeredProviders :=
  C3_amended (JsonVal.str "claude-3-sonnet") (by decide)

/-- Claim C2 counterexample: with a registered-provider miss (persisted
provider string "bogus"), the iteration writes FAILED with NO error field —
the update's error is `none`, not "no service for provider bogus" (the miss
is only logged). -/
theorem C2_counterexample :
    runIterationBody runningState "t"
      { defaultEnv with
        taskModel := JsonVal.obj [("provider", JsonVal.str "bogus"),
          ("name", JsonVal.str "m")] } =
      ({ runningState with abortController := some 1,
                           isProcessing := false, currentTaskId := none },
       [Effect.taskUpdate "t" { status := some TaskStatus.FAILED }]) ∧
    ({ status := some TaskStatus.FAILED : TaskPatch }).error = none := by
  exact ⟨by decide, rfl⟩

/-- Claim C2 amended: on every iteration whose resolved descriptor's provider
tag has no registered provider service, the task is transitioned to FAILED
with no error field set, the singleton processing state is cleared, and the
iteration stops (no provider call, no further effects). -/
theorem C2_amended (st : ProcState) (taskId : String) (env : IterEnv)
    (hp : st.isProcessing = true) (hr : env.taskStatus = TaskStatus.RUNNING)
    (hm : (resolveModel env.taskModel).provider ∉ registeredProviders) :
    runIterationBody st taskId env =
      ({ st with abortController := some env.freshAbortId,
                 isProcessing := false, currentTaskId := none },
       [Effect.taskUpdate taskId { status := some TaskStatus.FAILED }]) := by
  unfold runIterationBody runIterationResolved
  simp [hp, hr, hm]

/-- Claim C2 witness: the amended behaviour at the concrete "bogus" provider. -/
theorem C2_witness :
    runIterationBody runningState "t"
      { defaultEnv with
        taskModel := JsonVal.obj [("provider", JsonVal.str "bogus"),
          ("name", JsonVal.str "m")] } =
      ({ runningState with abortController := some 1,
                           isProcessing := false, currentTaskId := none },
       [Effect.taskUpdate "t" { status := some TaskStatus.FAILED }]) :=
  C2_amended runningState "t" _ (by decide) (by decide) (by decide)

theorem recGet_recSet {α : Type} (m : List (String × α)) (k : String) (v : α) :
    recGet (recSet m k v) k = some v := by
  simp [recGet, recSet]

theorem recGet_recDel {α : Type} (m : List (String × α)) (k : String) :
    recGet (recDel m k) k = none := by
  induction m with
  | nil => rfl
  | cons e rest ih =>
    by_cases h : e.1 = k
    · rw [recDel, List.filter_cons, if_neg (by simp [h])]
      exact ih
    · rw [recDel, List.filter_cons, if_pos (by simp [h])]
      rw [recGet, List.find?_cons]
      rw [show (e.1 == k) = false from by simp [h]]
      exact ih

/-- Claim C5: when an error-marked computer_* tool result brings the task's
consecutive-failure counter to 2 and degradation is not already active, the
dispatcher sets computerToolsDisabled for the task, transitions the task to
NEEDS_HELP with a human-readable error, clears the singleton flags, and
terminates the iteration without processing the remaining blocks (its outcome
is independent of `rest`). -/
theorem C5_theorem (st : ProcState) (taskId : String) (cr : ℕ → ToolResultData)
    (idx : ℕ) (name bid : String) (input : ToolInput) (rest : List ContentBlock)
    (effs : List Effect) (results : List ToolResultData)
    (stsb : Option (String × ToolInput))
    (hname : strStartsWith name "computer_" = true)
    (herr : (cr idx).is_error = true)
    (hcount : (recGet st.computerToolFailures taskId).getD 0 = 1)
    (hdis : (recGet st.computerToolsDisabled taskId).getD false = false) :
    dispatchBlocks taskId cr st idx (ContentBlock.toolUse name bid input :: rest)
        effs results stsb =
      DispatchOutcome.degraded
        { st with
          computerToolFailures := recSet st.computerToolFailures taskId 2
          computerToolsDisabled := recSet st.computerToolsDisabled taskId true
          isProcessing := false
          currentTaskId := none }
        (effs ++ [Effect.taskUpdate taskId
          { status := some TaskStatus.NEEDS_HELP, error := some degradationError }]) := by
  simp [dispatchBlocks, isComputerToolUseContentBlock, hname, herr, hcount, hdis]

/-- Claim C5 witness: the degradation step evaluated at a concrete state with
one prior failure, a failing screenshot call, and a trailing block that is
discarded. -/
theorem C5_witness :
    dispatchBlocks "t" (fun _ => { tool_use_id := "x", is_error := true, content := [] })
        { runningState with computerToolFailures := [("t", 1)] } 0
        [ContentBlock.toolUse "computer_screenshot" "b1" {}, ContentBlock.text "rest"]
        [] [] none =
      DispatchOutcome.degraded
        { runningState with
          computerToolFailures := recSet [("t", 1)] "t" 2
          computerToolsDisabled := recSet [] "t" true
          isProcessing := false
          currentTaskId := none }
        [Effect.taskUpdate "t"
          { status := some TaskStatus.NEEDS_HELP, error := some degradationError }] :=
  C5_theorem { runningState with computerToolFailures := [("t", 1)] } "t"
    (fun _ => { tool_use_id := "x", is_error := true, content := [] }) 0
    "computer_screenshot" "b1" {} [ContentBlock.text "rest"] [] [] none
    (by decide) (by decide) (by decide) (by decide)

/-- Claim C6: a set_task_status block makes the dispatcher emit a ToolResult
whose is_error is true exactly when the status is "failed", echoing the
description, and merely records the block (the loop step is a plain recursive
continuation with no status effect); the deferred switch maps completed to
COMPLETED with completedAt set and needs_help to NEEDS_HELP, ignores every
other value including "failed"; and the deferred update is emitted only after
the tool-result USER message in the iteration tail. -/
theorem C6_theorem :
    (∀ (st : ProcState) (taskId : String) (cr : ℕ → ToolResultData) (idx : ℕ)
       (bid : String) (input : ToolInput) (rest : List ContentBlock)
       (effs : List Effect) (results : List ToolResultData)
       (stsb : Option (String × ToolInput)),
      dispatchBlocks taskId cr st idx
          (ContentBlock.toolUse "set_task_status" bid input :: rest) effs results stsb =
        dispatchBlocks taskId cr st (idx + 1) rest effs
          (results ++ [{ tool_use_id := bid
                         is_error := input.status == "failed"
                         content := [SimpleBlock.text input.description] }])
          (some (bid, input))) ∧
    statusUpdatePatch "completed" =
      some { status := some TaskStatus.COMPLETED, completedAtSet := true } ∧
    statusUpdatePatch "needs_help" = some { status := some TaskStatus.NEEDS_HELP } ∧
    statusUpdatePatch "failed" = none ∧
    (∀ s : String, s ≠ "completed" → s ≠ "needs_help" → statusUpdatePatch s = none) ∧
    (∀ (taskId : String) (st : ProcState) (results : List ToolResultData)
       (bid : String) (input : ToolInput) (p : TaskPatch),
      statusUpdatePatch input.status = some p →
      finishDispatch taskId st results (some (bid, input)) =
        (if results.isEmpty then []
         else [Effect.msgCreate taskId Role.USER (results.map ContentBlock.toolResult)]) ++
        [Effect.taskUpdate taskId p] ++
        (if st.isProcessing then [Effect.scheduleNext taskId] else [])) := by
  refine ⟨?_, by decide, by decide, by decide, ?_, ?_⟩
  · intro st taskId cr idx bid input rest effs results stsb
    have h1 : strStartsWith "set_task_status" "computer_" = false := by decide
    have h2 : ("set_task_status" == "create_task") = false := by decide
    have h3 : ("set_task_status" == "set_task_status") = true := by decide
    simp [dispatchBlocks, isComputerToolUseContentBlock, isCreateTaskToolUseBlock,
      isSetTaskStatusToolUseBlock, h1, h2, h3]
  · intro s h1 h2
    simp [statusUpdatePatch, h1, h2]
  · intro taskId st results bid input p hp
    simp [finishDispatch, hp]

/-- Claim C6 witness: the set_task_status handling evaluated concretely — an
error-marked echo for "failed", an ignored unknown status, and the tail
ordering for a "completed" block. -/
theorem C6_witness :
    (dispatchBlocks "t" (fun _ => { tool_use_id := "", content := [] }) runningState 0
        [ContentBlock.toolUse "set_task_status" "b1"
          { status := "failed", description := "oops" }] [] [] none =
      dispatchBlocks "t" (fun _ => { tool_use_id := "", content := [] }) runningState 1
        [] []
        [{ tool_use_id := "b1", is_error := true,
           content := [SimpleBlock.text "oops"] }]
        (some ("b1", { status := "failed", description := "oops" }))) ∧
    statusUpdatePatch "cancelled" = none ∧
    finishDispatch "t" runningState
        [{ tool_use_id := "b1", content := [SimpleBlock.text "done"] }]
        (some ("b1", { status := "completed", description := "done" })) =
      (if ([{ tool_use_id := "b1", content := [SimpleBlock.text "done"] }] :
            List ToolResultData).isEmpty then []
       else [Effect.msgCreate "t" Role.USER
        ([{ tool_use_id := "b1", content := [SimpleBlock.text "done"] }].map
          ContentBlock.toolResult)]) ++
      [Effect.taskUpdate "t"
        { status := some TaskStatus.COMPLETED, completedAtSet := true }] ++
      (if runningState.isProcessing then [Effect.scheduleNext "t"] else []) :=
  ⟨C6_theorem.1 runningState "t" (fun _ => { tool_use_id := "", content := [] }) 0
     "b1" { status := "failed", description := "oops" } [] [] [] none,
   C6_theorem.2.2.2.2.1 "cancelled" (by decide) (by decide),
   C6_theorem.2.2.2.2.2 "t" runningState
     [{ tool_use_id := "b1", content := [SimpleBlock.text "done"] }] "b1"
     { status := "completed", description := "done" }
     { status := some TaskStatus.COMPLETED, completedAtSet := true } (by decide)⟩

/-- Claim C7: the outer error handler classifies an error as an Interrupt iff
its name or exact message is "BytebotAgentInterrupt"; on an Interrupt with
fewer than MAX_INTERRUPT_RETRIES (3) recorded retries it increments the
task's retry count and schedules another iteration after 500 ms without
touching any other processor field; once the bound is reached it transitions
the task to NEEDS_HELP with an explanatory error and deletes the count; and
the stored retry count never exceeds 3, so no task retries more than 3 times
on consecutive Interrupts. -/
theorem C7_theorem :
    (∀ (n : Option String) (m : String),
      isInterrupt { name := n, message := m } = true ↔
        (n = some "BytebotAgentInterrupt" ∨ m = "BytebotAgentInterrupt")) ∧
    (∀ (st : ProcState) (taskId : String) (err : JsError),
      isInterrupt err = true →
      (recGet st.retryCounts taskId).getD 0 < MAX_INTERRUPT_RETRIES →
      handleIterationError st taskId err =
        ({ st with
           retryCounts := recSet st.retryCounts taskId
             ((recGet st.retryCounts taskId).getD 0 + 1) },
         [Effect.scheduleRetry taskId 500])) ∧
    (∀ (st : ProcState) (taskId : String) (err : JsError),
      isInterrupt err = true →
      ¬ (recGet st.retryCounts taskId).getD 0 < MAX_INTERRUPT_RETRIES →
      handleIterationError st taskId err =
        ({ st with retryCounts := recDel st.retryCounts taskId,
                   isProcessing := false, currentTaskId := none },
         [Effect.taskUpdate taskId
            { status := some TaskStatus.NEEDS_HELP,
              error := some interruptExhaustedError }])) ∧
    (∀ (st : ProcState) (taskId : String) (err : JsError),
      isInterrupt err = true →
      (recGet (handleIterationError st taskId err).1.retryCounts taskId).getD 0 ≤
        MAX_INTERRUPT_RETRIES) := by
  refine ⟨?_, ?_, ?_, ?_⟩
  · intro n m
    simp [isInterrupt]
  · intro st taskId err hint hlt
    simp [handleIterationError, hint, hlt]
  · intro st taskId err hint hge
    simp [handleIterationError, hint, hge]
  · intro st taskId err hint
    unfold handleIterationError
    simp only [hint]
    by_cases hlt : (recGet st.retryCounts taskId).getD 0 < MAX_INTERRUPT_RETRIES
    · simp only [hlt, if_true]
      simp [recGet_recSet]
      omega
    · simp only [hlt, if_false]
      simp [recGet_recDel]

/-- Claim C7 witness: the interrupt policy evaluated concretely — a first
interrupt schedules a 500 ms retry keeping the processing state, a fourth
consecutive interrupt (count already 3) escalates to NEEDS_HELP, and the
stored count stays within the bound. -/
theorem C7_witness :
    handleIterationError runningState "t"
        { name := some "BytebotAgentInterrupt", message := "x" } =
      ({ runningState with
         retryCounts := recSet runningState.retryCounts "t"
           ((recGet runningState.retryCounts "t").getD 0 + 1) },
       [Effect.scheduleRetry "t" 500]) ∧
    handleIterationError { runningState with retryCounts := [("t", 3)] } "t"
        { name := none, message := "BytebotAgentInterrupt" } =
      ({ runningState with
         retryCounts := recDel [("t", 3)] "t",
         isProcessing := false, currentTaskId := none },
       [Effect.taskUpdate "t"
          { status := some TaskStatus.NEEDS_HELP,
            error := some interruptExhaustedError }]) ∧
    (recGet (handleIterationError runningState "t"
        { name := some "BytebotAgentInterrupt", message := "x" }).1.retryCounts
      "t").getD 0 ≤ MAX_INTERRUPT_RETRIES :=
  ⟨C7_theorem.2.1 runningState "t"
     { name := some "BytebotAgentInterrupt", message := "x" } (by decide) (by decide),
   C7_theorem.2.2.1 { runningState with retryCounts := [("t", 3)] } "t"
     { name := none, message := "BytebotAgentInterrupt" } (by decide) (by decide),
   C7_theorem.2.2.2 runningState "t"
     { name := some "BytebotAgentInterrupt", message := "x" } (by decide)⟩

/-- Claim C1 counterexample: `stopProcessing` on a busy state with recorded
per-task ephemeral entries stops processing but deletes none of them — the
retryCounts, computerToolFailures and computerToolsDisabled entries for the
stopped task survive. -/
theorem C1_counterexample :
    (stopProcessing { runningState with
        retryCounts := [("t", 2)],
        computerToolFailures := [("t", 1)],
        computerToolsDisabled := [("t", true)] }).1 =
      { currentTaskId := none, isProcessing := false, abortController := some 0,
        retryCounts := [("t", 2)],
        computerToolFailures := [("t", 1)],
        computerToolsDisabled := [("t", true)] } := by
  decide

/-- Claim C1 amended: per-task ephemeral state largely survives — the
processor deletes only the `retryCounts` entry, and only in the iteration
error handler's two terminal branches (non-interrupt error, or interrupt with
the retry bound exhausted); `stopProcessing` deletes nothing, and the
iteration body never deletes `retryCounts`; `computerToolFailures` and
`computerToolsDisabled` entries are never deleted anywhere. -/
theorem C1_amended :
    (∀ st : ProcState,
      (stopProcessing st).1.retryCounts = st.retryCounts ∧
      (stopProcessing st).1.computerToolFailures = st.computerToolFailures ∧
      (stopProcessing st).1.computerToolsDisabled = st.computerToolsDisabled) ∧
    (∀ (st : ProcState) (taskId : String) (err : JsError),
      (isInterrupt err = false ∨
        ¬ (recGet st.retryCounts taskId).getD 0 < MAX_INTERRUPT_RETRIES) →
      (handleIterationError st taskId err).1.retryCounts =
          recDel st.retryCounts taskId ∧
      (handleIterationError st taskId err).1.computerToolFailures =
          st.computerToolFailures ∧
      (handleIterationError st taskId err).1.computerToolsDisabled =
          st.computerToolsDisabled) ∧
    (∀ (st : ProcState) (taskId : String) (env : IterEnv),
      (runIterationBody st taskId env).1.retryCounts = st.retryCounts) := by
  refine ⟨?_, ?_, ?_⟩
  · intro st
    unfold stopProcessing
    by_cases h : st.isProcessing <;> simp [h]
  · intro st taskId err h
    rcases h with h | h
    · simp [handleIterationError, h]
    · by_cases hint : isInterrupt err = true
      · simp [handleIterationError, hint, h]
      · simp [handleIterationError, hint]
  · intro st taskId env
    unfold runIterationBody runIterationResolved
    split
    · rfl
    split
    · rfl
    split
    · rfl
    split
    next msg heq => rfl
    next blocks totalTokens heq =>
      split
      · rfl
      split
      next st2 effD hdisp =>
        have hd := dispatchBlocks_inv taskId env.computerResults blocks
          { st with abortController := some env.freshAbortId } 0 [] [] none
        rw [hdisp] at hd
        exact hd.2.2.1
      next st2 effD results stsb hdisp =>
        have hd := dispatchBlocks_inv taskId env.computerResults blocks
          { st with abortController := some env.freshAbortId } 0 [] [] none
        rw [hdisp] at hd
        exact hd.2.2.1

/-- A busy state carrying ephemeral entries, for exercising the deletion
behaviour. -/
def busyWithEphemeral : ProcState :=
  { currentTaskId := some "t", isProcessing := true, abortController := some 0,
    retryCounts := [("t", 2)], computerToolFailures := [("t", 1)],
    computerToolsDisabled := [] }

/-- Claim C1 witness: the amended statement evaluated on a busy state with
recorded ephemeral entries, a non-interrupt error, and a plain iteration. -/
theorem C1_witness :
    ((stopProcessing busyWithEphemeral).1.retryCounts = [("t", 2)] ∧
      (stopProcessing busyWithEphemeral).1.computerToolFailures = [("t", 1)] ∧
      (stopProcessing busyWithEphemeral).1.computerToolsDisabled = []) ∧
    ((handleIterationError busyWithEphemeral "t"
        { name := none, message := "boom" }).1.retryCounts = recDel [("t", 2)] "t" ∧
      (handleIterationError busyWithEphemeral "t"
        { name := none, message := "boom" }).1.computerToolFailures = [("t", 1)] ∧
      (handleIterationError busyWithEphemeral "t"
        { name := none, message := "boom" }).1.computerToolsDisabled = []) ∧
    (runIterationBody busyWithEphemeral "t" defaultEnv).1.retryCounts = [("t", 2)] :=
  ⟨C1_amended.1 busyWithEphemeral,
   C1_amended.2.1 busyWithEphemeral "t"
     { name := none, message := "boom" } (Or.inl (by decide)),
   C1_amended.2.2 busyWithEphemeral "t" defaultEnv⟩

/-- Invariant P1: the processor is marked busy exactly when it holds a task. -/
def procInvariant (st : ProcState) : Prop :=
  st.isProcessing = true ↔ st.currentTaskId ≠ none

/-- Claim C4 counterexample: the three-way equivalence fails for the
cancellation handle — after `processTask` then `stopProcessing`,
`isProcessing` is false and `currentTaskId` is null, but `abortController`
is still non-null (it is aborted, never reset to null). -/
theorem C4_counterexample :
    (stopProcessing (processTask initialState "t" 7).1).1.isProcessing = false ∧
    (stopProcessing (processTask initialState "t" 7).1).1.currentTaskId = none ∧
    (stopProcessing (processTask initialState "t" 7).1).1.abortController = some 7 := by
  decide

/-- Claim C4 amended: the invariant `isProcessing ⇔ currentTaskId ≠ null`
holds initially and is preserved by every iteration (body and error handler)
and every lifecycle operation (processTask, takeover, resume, cancel,
stopProcessing); the `cancellationHandle ≠ null` leg of the spec's three-way
equivalence does not hold, since the handle is never reset to null. -/
theorem C4_amended :
    procInvariant initialState ∧
    (∀ (st : ProcState) (taskId : String) (ab : ℕ),
      procInvariant st → procInvariant (processTask st taskId ab).1) ∧
    (∀ (st : ProcState) (taskId : String),
      procInvariant st → procInvariant (handleTaskTakeover st taskId).1) ∧
    (∀ (st : ProcState) (taskId : String) (ab : ℕ),
      procInvariant st → procInvariant (handleTaskResume st taskId ab).1) ∧
    (∀ st : ProcState, procInvariant st → procInvariant (handleTaskCancel st).1) ∧
    (∀ st : ProcState, procInvariant st → procInvariant (stopProcessing st).1) ∧
    (∀ (st : ProcState) (taskId : String) (env : IterEnv),
      procInvariant st → procInvariant (runIterationBody st taskId env).1) ∧
    (∀ (st : ProcState) (taskId : String) (err : JsError),
      procInvariant st → procInvariant (handleIterationError st taskId err).1) := by
  refine ⟨?_, ?_, ?_, ?_, ?_, ?_, ?_, ?_⟩
  · simp [procInvariant, initialState]
  · intro st taskId ab h
    unfold processTask
    split
    · exact h
    · simp [procInvariant]
  · intro st taskId h
    exact h
  · intro st taskId ab h
    unfold handleTaskResume
    split
    · simpa [procInvariant] using h
    · exact h
  · intro st h
    unfold handleTaskCancel stopProcessing
    split
    · exact h
    · simp [procInvariant]
  · intro st h
    unfold stopProcessing
    split
    · exact h
    · simp [procInvariant]
  · intro st taskId env h
    unfold runIterationBody runIterationResolved
    split
    · exact h
    split
    · simp [procInvariant]
    split
    · simp [procInvariant]
    split
    next msg heq => simp [procInvariant]
    next blocks totalTokens heq =>
      split
      · simp [procInvariant]
      split
      next st2 effD hdisp =>
        have hd := dispatchBlocks_inv taskId env.computerResults blocks
          { st with abortController := some env.freshAbortId } 0 [] [] none
        rw [hdisp] at hd
        simp [procInvariant, hd.1, hd.2.1]
      next st2 effD results stsb hdisp =>
        have hd := dispatchBlocks_inv taskId env.computerResults blocks
          { st with abortController := some env.freshAbortId } 0 [] [] none
        rw [hdisp] at hd
        have h1 : st2.isProcessing = st.isProcessing := hd.1
        have h2 : st2.currentTaskId = st.currentTaskId := hd.2.1
        simpa [procInvariant, h1, h2] using h
  · intro st taskId err h
    unfold handleIterationError
    split
    · by_cases hc : (recGet st.retryCounts taskId).getD 0 < MAX_INTERRUPT_RETRIES
      · simpa [procInvariant, hc] using h
      · simp [procInvariant, hc]
    · simp [procInvariant]

/-- Claim C4 witness: the amended invariant evaluated along a concrete
lifecycle — idle, then started, then iterated, then stopped. -/
theorem C4_witness :
    procInvariant (processTask initialState "t" 0).1 ∧
    procInvariant (runIterationBody runningState "t" defaultEnv).1 ∧
    procInvariant (stopProcessing runningState).1 ∧
    procInvariant (handleIterationError runningState "t"
      { name := none, message := "boom" }).1 :=
  ⟨C4_amended.2.1 initialState "t" 0 (by simp [procInvariant, initialState]),
   C4_amended.2.2.2.2.2.2.1 runningState "t" defaultEnv
     (by simp [procInvariant, runningState]),
   C4_amended.2.2.2.2.2.1 runningState (by simp [procInvariant, runningState]),
   C4_amended.2.2.2.2.2.2.2 runningState "t" { name := none, message := "boom" }
     (by simp [procInvariant, runningState])⟩

/-- Effects that are neither provider calls nor summary-store writes. -/
def summaryNeutral (e : Effect) : Bool :=
  match e with
  | Effect.providerCall _ _ _ _ => false
  | Effect.summaryCreate _ _ => false
  | Effect.attachSummary _ _ _ => false
  | _ => true

theorem dispatchOnly_summaryNeutral {e : Effect} (h : dispatchOnly e = true) :
    summaryNeutral e = true := by
  cases e <;> simp_all [dispatchOnly, summaryNeutral]

theorem all_dispatchOnly_summaryNeutral {l : List Effect}
    (h : l.all dispatchOnly = true) : l.all summaryNeutral = true := by
  rw [List.all_eq_true] at h ⊢
  intro e he
  exact dispatchOnly_summaryNeutral (h e he)

theorem finishDispatch_summaryNeutral (taskId : String) (st : ProcState)
    (results : List ToolResultData) (stsb : Option (String × ToolInput)) :
    (finishDispatch taskId st results stsb).all summaryNeutral = true := by
  unfold finishDispatch
  rw [List.all_eq_true]
  intro e he
  simp only [List.mem_append] at he
  rcases he with (he | he) | he
  · split at he <;> simp_all [summaryNeutral]
  · rcases stsb with _ | ⟨bid, input⟩
    · simp at he
    · simp only at he
      split at he <;> simp_all [summaryNeutral]
  · split at he <;> simp_all [summaryNeutral]

theorem all_summaryNeutral_no_summCall {l : List Effect}
    (h : l.all summaryNeutral = true) : l.any isSummarizationCall = false := by
  rw [List.all_eq_true] at h
  rw [List.any_eq_false]
  intro e he
  have := h e he
  cases e <;> simp_all [summaryNeutral, isSummarizationCall]

theorem all_summaryNeutral_no_attach {l : List Effect}
    (h : l.all summaryNeutral = true) : l.filterMap attachIdsOf = [] := by
  induction l with
  | nil => rfl
  | cons e rest ih =>
    rw [List.all_cons] at h
    obtain ⟨he, hrest⟩ := Bool.and_eq_true_iff.mp h
    rw [List.filterMap_cons]
    cases e <;> simp_all [summaryNeutral, attachIdsOf]

/-- On the success path (processing, task RUNNING, registered provider,
non-empty response), the iteration's effect trace is the agent provider call,
the assistant persist, the summarization effects, and a tail that touches
neither the provider nor the summary store. -/
theorem runIterationBody_success (st : ProcState) (taskId : String) (env : IterEnv)
    (blocks : List ContentBlock) (tt : ℤ)
    (hp : st.isProcessing = true) (hr : env.taskStatus = TaskStatus.RUNNING)
    (hm : (resolveModel env.taskModel).provider ∈ registeredProviders)
    (hres : env.providerResult = ProviderCallResult.success blocks tt)
    (hne : blocks.isEmpty = false) :
    ∃ extra : List Effect,
      (runIterationBody st taskId env).2 =
        Effect.providerCall AGENT_SYSTEM_PROMPT
            (assembleMessages st taskId env.latestSummary env.unsummarized)
            (resolveModel env.taskModel).name true ::
        Effect.msgCreate taskId Role.ASSISTANT blocks ::
        (summarizeEffects taskId (resolveModel env.taskModel)
            (assembleMessages st taskId env.latestSummary env.unsummarized) tt
            env.summaryCallResult env.newSummaryId ++ extra) ∧
      extra.all summaryNeutral = true := by
  unfold runIterationBody runIterationResolved
  rw [if_neg (by simp [hp]), if_neg (by simp [hr]), if_neg (by simp [hm]), hres]
  simp only [hne, Bool.false_eq_true, if_false]
  have hd := dispatchBlocks_inv taskId env.computerResults blocks
    { st with abortController := some env.freshAbortId } 0 [] [] none
  revert hd
  cases dispatchBlocks taskId env.computerResults
      { st with abortController := some env.freshAbortId } 0 blocks [] [] none with
  | degraded st2 effD =>
    intro hd
    obtain ⟨extra, heq, hall⟩ := hd.2.2.2.2
    simp only [List.nil_append] at heq
    subst heq
    exact ⟨effD, rfl, all_dispatchOnly_summaryNeutral hall⟩
  | done st2 effD results stsb =>
    intro hd
    obtain ⟨extra, heq, hall⟩ := hd.2.2.2.2
    simp only [List.nil_append] at heq
    subst heq
    refine ⟨effD ++ finishDispatch taskId st2 results stsb, rfl, ?_⟩
    rw [List.all_append, all_dispatchOnly_summaryNeutral hall,
      finishDispatch_summaryNeutral taskId st2 results stsb]
    rfl

/-- Claim C8 counterexample: with a descriptor that carries `contextWindow = 0`
(a falsy JS number) and `totalTokens = 0`, the claim's trigger condition
`totalTokens ≥ contextWindow × 0.75` holds (0 ≥ 0), yet the iteration makes
no summarization call and creates no summary: `model.contextWindow || 200000`
also replaces a present-but-zero window by the 200000 default. -/
theorem C8_counterexample :
    (resolveModel (JsonVal.obj [("provider", JsonVal.str "openai"),
        ("name", JsonVal.str "m"),
        ("contextWindow", JsonVal.num 0)])).contextWindow = some 0 ∧
    ((0 : ℚ) ≥ ((0 : ℤ) : ℚ) * (3 / 4)) ∧
    ((runIterationBody runningState "t"
        { defaultEnv with
          taskModel := JsonVal.obj [("provider", JsonVal.str "openai"),
            ("name", JsonVal.str "m"), ("contextWindow", JsonVal.num 0)] }).2.any
      isSummarizationCall = false) := by
  refine ⟨by decide, by norm_num, by decide⟩

/-- Claim C8 amended: on a successful provider turn, a summarization call
appears in the trace exactly when `totalTokens ≥ cw × 0.75` where `cw` is the
descriptor's context window defaulted to 200000 when absent OR ZERO (JS
falsiness of `model.contextWindow || 200000`); every summarization provider
call is made with tools disabled; and when the summarization call succeeds
the created summary's content is the Text blocks of its response joined by
newlines. -/
theorem C8_amended (st : ProcState) (taskId : String) (env : IterEnv)
    (blocks : List ContentBlock) (tt : ℤ)
    (hp : st.isProcessing = true) (hr : env.taskStatus = TaskStatus.RUNNING)
    (hm : (resolveModel env.taskModel).provider ∈ registeredProviders)
    (hres : env.providerResult = ProviderCallResult.success blocks tt)
    (hne : blocks.isEmpty = false) :
    ((runIterationBody st taskId env).2.any isSummarizationCall =
      thresholdReached (defaultedWindow (resolveModel env.taskModel).contextWindow) tt) ∧
    (∀ (ms : List Message) (mn : String) (te : Bool),
      Effect.providerCall SUMMARIZATION_SYSTEM_PROMPT ms mn te ∈
        (runIterationBody st taskId env).2 → te = false) ∧
    (∀ sb : List ContentBlock, env.summaryCallResult = some sb →
      thresholdReached (defaultedWindow (resolveModel env.taskModel).contextWindow) tt = true →
      Effect.summaryCreate taskId (String.intercalate "\n" (textsOf sb)) ∈
        (runIterationBody st taskId env).2) := by
  obtain ⟨extra, heq, hall⟩ :=
    runIterationBody_success st taskId env blocks tt hp hr hm hres hne
  refine ⟨?_, ?_, ?_⟩
  · rw [heq]
    have hagent : isSummarizationCall (Effect.providerCall AGENT_SYSTEM_PROMPT
        (assembleMessages st taskId env.latestSummary env.unsummarized)
        (resolveModel env.taskModel).name true) = false := by
      simp only [isSummarizationCall]
      decide
    have hmsg : isSummarizationCall
        (Effect.msgCreate taskId Role.ASSISTANT blocks) = false := rfl
    simp only [List.any_cons, List.any_append,
      all_summaryNeutral_no_summCall hall, Bool.or_false, hagent, hmsg,
      Bool.false_or]
    unfold summarizeEffects
    split
    next ht =>
      cases env.summaryCallResult <;> simp [isSummarizationCall, ht]
    next ht =>
      simp only [Bool.not_eq_true] at ht
      simp [ht]
  · intro ms mn te hmem
    rw [heq] at hmem
    simp only [List.mem_cons, List.mem_append] at hmem
    rcases hmem with h | h | h | h
    · injection h with h1 h2 h3 h4
      exact absurd h1 (by decide)
    · exact Effect.noConfusion h
    · revert h
      unfold summarizeEffects
      split
      · cases env.summaryCallResult with
        | none =>
          intro h
          simp only [List.mem_singleton] at h
          injection h with h1 h2 h3 h4
        | some sb =>
          intro h
          simp only [List.mem_cons, List.not_mem_nil, or_false] at h
          rcases h with h | h | h
          · injection h with h1 h2 h3 h4
          · exact Effect.noConfusion h
          · exact Effect.noConfusion h
      · intro h
        simp at h
    · have hne2 := List.all_eq_true.mp hall _ h
      simp [summaryNeutral] at hne2
  · intro sb hsb ht
    rw [heq]
    unfold summarizeEffects
    rw [ht, hsb]
    simp

/-- An environment whose provider turn reports 150000 tokens (above 75% of the
default 200000 window) and whose summarization sub-call succeeds. -/
def summEnv : IterEnv :=
  { defaultEnv with
    providerResult := ProviderCallResult.success [ContentBlock.text "hi"] 150000
    summaryCallResult := some [ContentBlock.text "a", ContentBlock.other,
      ContentBlock.text "b"] }

/-- Claim C8 witness: the amended trigger evaluated at 150000 tokens against
the defaulted 200000 window, with the summary body joined from the Text
blocks by a newline. -/
theorem C8_witness :
    ((runIterationBody runningState "t" summEnv).2.any isSummarizationCall =
      thresholdReached
        (defaultedWindow (resolveModel summEnv.taskModel).contextWindow) 150000) ∧
    Effect.summaryCreate "t" "a\nb" ∈ (runIterationBody runningState "t" summEnv).2 :=
  ⟨(C8_amended runningState "t" summEnv [ContentBlock.text "hi"] 150000
      (by decide) (by decide) (by decide) (by decide) (by decide)).1,
   (C8_amended runningState "t" summEnv [ContentBlock.text "hi"] 150000
      (by decide) (by decide) (by decide) (by decide) (by decide)).2.2
     [ContentBlock.text "a", ContentBlock.other, ContentBlock.text "b"]
     (by decide) (by decide)⟩

/-- Claim C10: whenever summarization runs, the id list passed to
attachSummary is exactly the ids of the message list assembled for this
iteration's LLM call — the empty-string ids of the synthetic summary-prefix
and advisory messages included — and that list can never contain the id of
the assistant message persisted in the same iteration: every non-empty id
outside the unsummarized messages is absent from it. -/
theorem C10_theorem (st : ProcState) (taskId : String) (env : IterEnv)
    (blocks : List ContentBlock) (tt : ℤ) (sb : List ContentBlock)
    (hp : st.isProcessing = true) (hr : env.taskStatus = TaskStatus.RUNNING)
    (hm : (resolveModel env.taskModel).provider ∈ registeredProviders)
    (hres : env.providerResult = ProviderCallResult.success blocks tt)
    (hne : blocks.isEmpty = false)
    (ht : thresholdReached
      (defaultedWindow (resolveModel env.taskModel).contextWindow) tt = true)
    (hsb : env.summaryCallResult = some sb) :
    ((runIterationBody st taskId env).2.filterMap attachIdsOf =
      [(assembleMessages st taskId env.latestSummary env.unsummarized).map
        (fun m => m.id)]) ∧
    ((assembleMessages st taskId env.latestSummary env.unsummarized).map
        (fun m => m.id) =
      (match env.latestSummary with | some _ => [""] | none => []) ++
      env.unsummarized.map (fun m => m.id) ++
      (if (recGet st.computerToolsDisabled taskId).getD false then [""] else [])) ∧
    (∀ aId : String, aId ∉ env.unsummarized.map (fun m => m.id) → aId ≠ "" →
      aId ∉ (assembleMessages st taskId env.latestSummary env.unsummarized).map
        (fun m => m.id)) := by
  have hids : (assembleMessages st taskId env.latestSummary env.unsummarized).map
      (fun m => m.id) =
      (match env.latestSummary with | some _ => [""] | none => []) ++
      env.unsummarized.map (fun m => m.id) ++
      (if (recGet st.computerToolsDisabled taskId).getD false then [""]
       else []) := by
    unfold assembleMessages syntheticUserMessage
    cases env.latestSummary <;>
      by_cases hdis : (recGet st.computerToolsDisabled taskId).getD false = true <;>
      simp [hdis]
  refine ⟨?_, hids, ?_⟩
  · obtain ⟨extra, heq, hall⟩ :=
      runIterationBody_success st taskId env blocks tt hp hr hm hres hne
    rw [heq]
    unfold summarizeEffects
    rw [ht, hsb]
    simp [attachIdsOf, all_summaryNeutral_no_attach hall]
  · intro aId hun hempty hmem
    rw [hids] at hmem
    simp only [List.mem_append] at hmem
    rcases hmem with (h | h) | h
    · rcases hls : env.latestSummary with _ | c
      · rw [hls] at h
        simp at h
      · rw [hls] at h
        simp only [List.mem_singleton] at h
        exact hempty h
    · exact hun h
    · by_cases hdis : (recGet st.computerToolsDisabled taskId).getD false
      · rw [if_pos hdis] at h
        simp only [List.mem_singleton] at h
        exact hempty h
      · rw [if_neg hdis] at h
        simp at h

/-- A busy state in which desktop automation is disabled for task "t". -/
def disabledState : ProcState :=
  { runningState with computerToolsDisabled := [("t", true)] }

/-- A stored message with id "m1". -/
def storedMsg : Message :=
  { id := "m1", role := Role.USER, taskId := "t"
    content := [ContentBlock.text "hello"] }

/-- An environment with a previous summary, one unsummarized message, a turn
over the summarization threshold, and a successful summarization sub-call. -/
def summEnvFull : IterEnv :=
  { defaultEnv with
    latestSummary := some "previous summary"
    unsummarized := [storedMsg]
    providerResult := ProviderCallResult.success [ContentBlock.text "hi"] 150000
    summaryCallResult := some [ContentBlock.text "S"] }

/-- Claim C10 witness: with a summary prefix, one stored message and the
advisory message, the attached id list is exactly the assembled ids (the two
synthetic empty ids included), and a fresh non-empty id is never in it. -/
theorem C10_witness :
    ((runIterationBody disabledState "t" summEnvFull).2.filterMap attachIdsOf =
      [(assembleMessages disabledState "t" summEnvFull.latestSummary
        summEnvFull.unsummarized).map (fun m => m.id)]) ∧
    "a1" ∉ (assembleMessages disabledState "t" summEnvFull.latestSummary
        summEnvFull.unsummarized).map (fun m => m.id) :=
  ⟨(C10_theorem disabledState "t" summEnvFull [ContentBlock.text "hi"] 150000
      [ContentBlock.text "S"] (by decide) (by decide) (by decide) (by decide)
      (by decide) (by decide) (by decide)).1,
   (C10_theorem disabledState "t" summEnvFull [ContentBlock.text "hi"] 150000
      [ContentBlock.text "S"] (by decide) (by decide) (by decide) (by decide)
      (by decide) (by decide) (by decide)).2.2 "a1" (by decide) (by decide)⟩
